import Mathlib

/-!
Shallow embedding of the rootless-container core of youki
(crates/libcontainer/src/rootless.rs) together with proofs about the
claims of its specification.

Modelling conventions:
* All machine integers of the source (`u32` ids and sizes) are modelled as
  `Nat`; the one place where a `u32` addition can overflow
  (`is_id_mapped`, which computes `container_id + size`) uses an explicit
  `% 2^32`, matching the wrapping semantics of the compiled code.
* Environment reads (`geteuid`, `YOUKI_USE_ROOTLESS`, `PATH`) and the
  filesystem-existence probe are passed explicitly in an `Env` record.
* Fallible operations return `Except RootlessError`.  The `anyhow` error
  messages of the source are mapped to the named error constructors of the
  specification's error taxonomy.
* Filesystem writes and helper-process executions are side effects; the
  writer returns the list of effects it performs (`WriteEffect`).  The
  outcome of a helper-child process (spawn failure / exit status) is an
  explicit input (`ExecOutcome`), the testing seam described in the spec.
* The `unwrap()` of the helper-binary path in the multi-entry branch of
  `write_id_mapping` can panic; a panic is modelled as the `none` result of
  the surrounding `Option`.
-/

/-- Modulus of the 32-bit unsigned integers used for ids and sizes. -/
def u32Mod : Nat := 4294967296

/-- OCI `LinuxIdMapping`: `size` consecutive container ids starting at
`container_id` map to host ids starting at `host_id`.  All three fields are
`u32` in the source. -/
structure LinuxIdMapping where
  container_id : Nat
  host_id : Nat
  size : Nat
  deriving DecidableEq

/-- OCI `LinuxNamespaceType`; only `user` matters to this module. -/
inductive LinuxNamespaceType where
  | mnt
  | cgroup
  | uts
  | ipc
  | user
  | pid
  | network
  deriving DecidableEq

/-- OCI `LinuxNamespace`: a namespace type and an optional path.  An absent
path means a new namespace is created; a present path joins an existing
namespace. -/
structure LinuxNamespace where
  typ : LinuxNamespaceType
  path : Option String
  deriving DecidableEq

/-- OCI `Mount`, restricted to the single field this module reads: the
optional list of mount option strings.  The remaining fields (destination,
type, source) are never inspected by rootless.rs. -/
structure Mount where
  options : Option (List String)
  deriving DecidableEq

/-- OCI `User`, restricted to the additional (supplementary) group ids. -/
structure User where
  additional_gids : Option (List Nat)
  deriving DecidableEq

/-- OCI `Process`, restricted to its `user` section. -/
structure Process where
  user : User
  deriving DecidableEq

/-- OCI `Linux` platform section, restricted to the fields rootless.rs
reads: the namespace list and the two id-mapping lists. -/
structure LinuxSpec where
  namespaces : Option (List LinuxNamespace)
  uid_mappings : Option (List LinuxIdMapping)
  gid_mappings : Option (List LinuxIdMapping)
  deriving DecidableEq

/-- OCI `Spec`, restricted to the fields rootless.rs reads. -/
structure Spec where
  linux : Option LinuxSpec
  mounts : Option (List Mount)
  process : Option Process
  deriving DecidableEq

/-- Ambient state read by the source: effective uid (is it root), the
`YOUKI_USE_ROOTLESS` environment variable, the `PATH` environment variable,
and the filesystem-existence probe used by the helper lookup. -/
structure Env where
  euid_is_root : Bool
  youki_use_rootless : Option String
  path_var : Option String
  file_exists : String → Bool

/-- Error taxonomy of the specification; each constructor corresponds to
one bail/context site of rootless.rs. -/
inductive MappingKind where
  | uid
  | gid
  deriving DecidableEq

inductive RootlessError where
  | missingPlatformSection
  | missingUserNamespace
  | missingMapping (kind : MappingKind)
  | noMountsInSpec
  | invalidMountOption (mount : Mount) (opt : String)
  | unmappedMountId (mount : Mount) (id : Nat)
  | unmappedSupplementaryGroup (gid : Nat)
  | supplementaryGroupsForbidden
  | pathLookupFailure
  | missingHelperBinary
  | emptyMappingList
  | helperExecutionFailure
  deriving DecidableEq

/-- Modelled from the spec: `Namespaces::get(LinuxNamespaceType::User)`
from the namespaces module (not among the provided sources).  Per the
spec's factory step 2, it locates the user-namespace entry of the
specification's namespace list, if any; an absent namespace list holds no
entry. -/
def getUserNamespace (linux : LinuxSpec) : Option LinuxNamespace :=
  (linux.namespaces.getD []).find? (fun n => n.typ == LinuxNamespaceType.user)

/-- Source `rootless_required`: true when the effective uid is not root, or
when the `YOUKI_USE_ROOTLESS` environment variable equals "true". -/
def rootless_required (env : Env) : Bool :=
  if !env.euid_is_root then true
  else decide (env.youki_use_rootless = some "true")

/-- Source `is_id_mapped`: an id is mapped when some entry satisfies
`id >= container_id && id <= container_id + size`.  The `u32` addition
wraps modulo 2^32. -/
def is_id_mapped (id : Nat) (mappings : List LinuxIdMapping) : Bool :=
  mappings.any (fun m =>
    decide (m.container_id ≤ id) &&
    decide (id ≤ (m.container_id + m.size) % u32Mod))

/-- Rust `str::starts_with`, on the character lists of the strings. -/
def strStartsWith (s pre : String) : Bool :=
  pre.data.isPrefixOf s.data

/-- Rust byte slicing `s[n..]`, for the ASCII option strings this module
slices (byte offsets coincide with character offsets there). -/
def strDropChars (s : String) (n : Nat) : String :=
  String.mk (s.data.drop n)

/-- Decimal digit character for a value below ten. -/
def digitCharOf (d : Nat) : Char :=
  Char.ofNat (48 + d)

/-- Numeric value of a decimal digit character. -/
def charDigitOf (c : Char) : Nat :=
  c.toNat - 48

/-- Test for an ASCII decimal digit character. -/
def isDigitChar (c : Char) : Bool :=
  48 ≤ c.toNat && c.toNat ≤ 57

/-- Value of a big-endian list of decimal digit characters. -/
def digitsToNat (l : List Char) : Nat :=
  l.foldl (fun acc c => acc * 10 + charDigitOf c) 0

/-- Decimal digits of `n`, most significant first, with explicit fuel (the
fuel only needs to exceed the number of digits; callers pass `n + 1`). -/
def natReprCharsAux : Nat → Nat → List Char
  | 0, _ => []
  | fuel + 1, n =>
    if n = 0 then []
    else natReprCharsAux fuel (n / 10) ++ [digitCharOf (n % 10)]

/-- Decimal representation of `n` as a character list; models the `Display`
formatting of Rust's unsigned integers. -/
def natReprChars (n : Nat) : List Char :=
  if n = 0 then ['0'] else natReprCharsAux (n + 1) n

/-- Decimal representation of `n` as a string (Rust `to_string`). -/
def natRepr (n : Nat) : String :=
  String.mk (natReprChars n)

/-- Digit-list field of Rust's `u32::from_str`: non-empty, all decimal
digits, and the value must fit in 32 bits. -/
def parseU32Digits (l : List Char) : Option Nat :=
  if l.isEmpty then none
  else if l.all isDigitChar then
    if digitsToNat l < u32Mod then some (digitsToNat l) else none
  else none

/-- Rust `str::parse::<u32>()`: an optional leading plus sign followed by
one or more decimal digits whose value fits in 32 bits. -/
def parse_u32 (s : String) : Option Nat :=
  match s.data with
  | '+' :: rest => parseU32Digits rest
  | l => parseU32Digits l

/-- Split a character list at every occurrence of `sep` (Rust
`str::split`): n separators yield n+1 pieces, so the empty list yields one
empty piece. -/
def splitOnChar (sep : Char) : List Char → List (List Char)
  | [] => [[]]
  | c :: cs =>
    if c = sep then [] :: splitOnChar sep cs
    else
      match splitOnChar sep cs with
      | [] => [[c]]
      | t :: ts => (c :: t) :: ts

/-- Rust `str::split_terminator`: like split, but a trailing separator does
not produce a final empty piece. -/
def splitTerminator (sep : Char) (s : String) : List String :=
  let parts := splitOnChar sep s.data
  (if parts.getLast? = some [] then parts.dropLast else parts).map String.mk

/-- Source `lookup_map_binary`: read `PATH`, split it on colons, and return
the first directory in which the binary exists (`Path::join` modelled as
inserting a slash separator). -/
def lookup_map_binary (binary : String) (env : Env) :
    Except RootlessError (Option String) :=
  match env.path_var with
  | none => .error .pathLookupFailure
  | some paths =>
      .ok (((splitTerminator ':' paths).map (fun p => p ++ "/" ++ binary)).find?
        env.file_exists)

/-- Source `lookup_map_binaries`: nothing to locate when the uid mapping
list is absent or is a single entry (the source repeats the length-one
conjunct twice; it is kept here); otherwise both helpers must be found. -/
def lookup_map_binaries (linux : LinuxSpec) (env : Env) :
    Except RootlessError (Option (String × String)) :=
  match linux.uid_mappings with
  | some uid_mappings =>
    if uid_mappings.length == 1 && uid_mappings.length == 1 then .ok none
    else
      match lookup_map_binary "newuidmap" env with
      | .error e => .error e
      | .ok uidmap =>
        match lookup_map_binary "newgidmap" env with
        | .error e => .error e
        | .ok gidmap =>
          match uidmap, gidmap with
          | some newuidmap, some newgidmap => .ok (some (newuidmap, newgidmap))
          | _, _ => .error .missingHelperBinary
  | none => .ok none

/-- One mount-option check of `validate_mounts`: when the option starts
with the given four-character key (`"uid="` or `"gid="`), the remainder is
parsed as `u32` (a parse failure aborts via `?`) and the parsed id must be
mapped. -/
def checkMountOptFor (pre : String) (mappings : List LinuxIdMapping)
    (mount : Mount) (opt : String) : Except RootlessError Unit :=
  if strStartsWith opt pre then
    match parse_u32 (strDropChars opt 4) with
    | none => .error (.invalidMountOption mount opt)
    | some id =>
      if is_id_mapped id mappings then .ok ()
      else .error (.unmappedMountId mount id)
  else .ok ()

/-- Inner option loop of `validate_mounts`: each option is checked against
the uid mappings and then against the gid mappings, stopping at the first
failure. -/
def check_mount_options (uidMappings gidMappings : List LinuxIdMapping)
    (mount : Mount) : List String → Except RootlessError Unit
  | [] => .ok ()
  | opt :: opts =>
    match checkMountOptFor "uid=" uidMappings mount opt with
    | .error e => .error e
    | .ok () =>
      match checkMountOptFor "gid=" gidMappings mount opt with
      | .error e => .error e
      | .ok () => check_mount_options uidMappings gidMappings mount opts

/-- Source `validate_mounts`: every `uid=`/`gid=` mount option must carry a
parseable id that is mapped; mounts without an option list are skipped. -/
def validate_mounts (mounts : List Mount)
    (uidMappings gidMappings : List LinuxIdMapping) :
    Except RootlessError Unit :=
  match mounts with
  | [] => .ok ()
  | mount :: rest =>
    match
      (match mount.options with
       | some opts => check_mount_options uidMappings gidMappings mount opts
       | none => .ok ()) with
    | .error e => .error e
    | .ok () => validate_mounts rest uidMappings gidMappings

/-- Supplementary-group loop of `validate`: every listed gid must be mapped
in the gid mappings; the first unmapped gid aborts. -/
def check_additional_gids (gidMappings : List LinuxIdMapping) :
    List Nat → Except RootlessError Unit
  | [] => .ok ()
  | gid :: rest =>
    if is_id_mapped gid gidMappings then check_additional_gids gidMappings rest
    else .error (.unmappedSupplementaryGroup gid)

/-- Source `validate`: the rootless preconditions, checked in source order:
linux section present, user namespace present, gid then uid mapping lists
present, uid then gid mapping lists non-empty, mounts present and
consistent, and the supplementary-group policy keyed on the invoking
user's privilege. -/
def validate (euidRoot : Bool) (spec : Spec) : Except RootlessError Unit :=
  match spec.linux with
  | none => .error .missingPlatformSection
  | some linux =>
    match getUserNamespace linux with
    | none => .error .missingUserNamespace
    | some _ =>
      match linux.gid_mappings with
      | none => .error (.missingMapping .gid)
      | some gid_mappings =>
        match linux.uid_mappings with
        | none => .error (.missingMapping .uid)
        | some uid_mappings =>
          if uid_mappings.isEmpty then .error (.missingMapping .uid)
          else if gid_mappings.isEmpty then .error (.missingMapping .gid)
          else
            match spec.mounts with
            | none => .error .noMountsInSpec
            | some mounts =>
              match validate_mounts mounts uid_mappings gid_mappings with
              | .error e => .error e
              | .ok () =>
                match spec.process.bind (fun p => p.user.additional_gids) with
                | none => .ok ()
                | some additional_gids =>
                  match euidRoot, additional_gids.isEmpty with
                  | true, false =>
                      check_additional_gids gid_mappings additional_gids
                  | false, false => .error .supplementaryGroupsForbidden
                  | _, _ => .ok ()

/-- Source `Rootless` record. -/
structure Rootless where
  newuidmap : Option String
  newgidmap : Option String
  uid_mappings : Option (List LinuxIdMapping)
  gid_mappings : Option (List LinuxIdMapping)
  user_namespace : Option LinuxNamespace
  privileged : Bool

/-- Source `impl From<&Linux> for Rootless`. -/
def rootlessFrom (env : Env) (linux : LinuxSpec) : Rootless :=
  { newuidmap := none
    newgidmap := none
    uid_mappings := linux.uid_mappings
    gid_mappings := linux.gid_mappings
    user_namespace := getUserNamespace linux
    privileged := env.euid_is_root }

/-- Source `Rootless::new`: decide whether rootless mode applies and, if
so, validate the spec and attach the helper paths. -/
def Rootless.new (env : Env) (spec : Spec) :
    Except RootlessError (Option Rootless) :=
  match spec.linux with
  | none => .error .missingPlatformSection
  | some linux =>
    let user_namespace := getUserNamespace linux
    if rootless_required env && user_namespace.isNone then
      .error .missingUserNamespace
    else
      match user_namespace with
      | some ns =>
        if ns.path.isNone then
          match validate env.euid_is_root spec with
          | .error e => .error e
          | .ok () =>
            match lookup_map_binaries linux env with
            | .error e => .error e
            | .ok (some (uid_binary, gid_binary)) =>
                .ok (some { rootlessFrom env linux with
                              newuidmap := some uid_binary
                              newgidmap := some gid_binary })
            | .ok none => .ok (some (rootlessFrom env linux))
        else .ok none
      | none => .ok none

/-- Outcome of running the helper binary as a child process (the
process-invocation testing seam of the spec). -/
inductive ExecOutcome where
  | spawnFailure
  | exited (status : Nat) (stderr : String)

/-- Observable side effect of the id-mapping writer: either a direct write
of `content` to a mapping file, or an execution of the helper binary with
the given argument list. -/
inductive WriteEffect where
  | fileWrite (path : String) (content : String)
  | helperExec (binary : String) (args : List String)
  deriving DecidableEq

/-- Single-entry mapping line, source `format!` of
container id, host id and size separated by single spaces. -/
def formatMapping (m : LinuxIdMapping) : String :=
  String.mk (natReprChars m.container_id ++ ' ' ::
    (natReprChars m.host_id ++ ' ' :: natReprChars m.size))

/-- Modelled from the spec: a re-parser for the mapping-file line written
by the single-entry path — three decimal numbers separated by single
spaces.  The sources contain no reader for this file, so the parser
follows the spec's format description (section 6). -/
def parseIdMapping (content : String) : Option LinuxIdMapping :=
  match splitOnChar ' ' content.data with
  | [a, b, c] =>
    match (if a.isEmpty then none
           else if a.all isDigitChar then some (digitsToNat a) else none),
          (if b.isEmpty then none
           else if b.all isDigitChar then some (digitsToNat b) else none),
          (if c.isEmpty then none
           else if c.all isDigitChar then some (digitsToNat c) else none) with
    | some x, some y, some z => some ⟨x, y, z⟩
    | _, _, _ => none
  | _ => none

/-- Source `write_id_mapping`.  Zero entries fail; one entry is written
directly to the mapping file (`utils::write_file`, modelled from the spec
as a single content-replacing write effect); several entries run the
helper binary with pid followed by the mapping triples in list order.  The
result of the child process is captured but its exit status is not
inspected by the source.  A `none` result models the `unwrap()` panic on a
missing helper path. -/
def write_id_mapping (pid : Nat) (map_file : String)
    (mappings : List LinuxIdMapping) (map_binary : Option String)
    (exec : ExecOutcome) :
    Option (Except RootlessError (List WriteEffect)) :=
  match mappings with
  | [] => some (.error .emptyMappingList)
  | [m] => some (.ok [.fileWrite map_file (formatMapping m)])
  | _ =>
    match map_binary with
    | none => none
    | some b =>
      let args : List String :=
        (mappings.map (fun m =>
          [natRepr m.container_id, natRepr m.host_id, natRepr m.size])).flatten
      match exec with
      | .spawnFailure => some (.error .helperExecutionFailure)
      | .exited _ _ => some (.ok [.helperExec b (natRepr pid :: args)])

/-- Source `Rootless::write_uid_mapping`: a no-op when the config carries
no uid mappings. -/
def write_uid_mapping (r : Rootless) (target_pid : Nat) (exec : ExecOutcome) :
    Option (Except RootlessError (List WriteEffect)) :=
  match r.uid_mappings with
  | some uid_mappings =>
      write_id_mapping target_pid ("/proc/" ++ natRepr target_pid ++ "/uid_map")
        uid_mappings r.newuidmap exec
  | none => some (.ok [])

/-- Source `Rootless::write_gid_mapping`: a no-op when the config carries
no gid mappings. -/
def write_gid_mapping (r : Rootless) (target_pid : Nat) (exec : ExecOutcome) :
    Option (Except RootlessError (List WriteEffect)) :=
  match r.gid_mappings with
  | some gid_mappings =>
      write_id_mapping target_pid ("/proc/" ++ natRepr target_pid ++ "/gid_map")
        gid_mappings r.newgidmap exec
  | none => some (.ok [])

/-! ### Helper lemmas about decimal formatting and parsing -/

theorem charDigitOf_digitCharOf : ∀ d, d < 10 → charDigitOf (digitCharOf d) = d := by
  decide

theorem isDigitChar_digitCharOf : ∀ d, d < 10 → isDigitChar (digitCharOf d) = true := by
  decide

theorem digitCharOf_ne_space : ∀ d, d < 10 → digitCharOf d ≠ ' ' := by
  decide

theorem digitsToNat_append_digit (l : List Char) (c : Char) :
    digitsToNat (l ++ [c]) = digitsToNat l * 10 + charDigitOf c := by
  simp [digitsToNat, List.foldl_append]

theorem digitsToNat_natReprCharsAux :
    ∀ fuel n, n ≤ fuel → digitsToNat (natReprCharsAux fuel n) = n := by
  intro fuel
  induction fuel with
  | zero =>
    intro n hn
    interval_cases n
    simp [natReprCharsAux, digitsToNat]
  | succ fuel ih =>
    intro n hn
    by_cases h0 : n = 0
    · subst h0; simp [natReprCharsAux, digitsToNat]
    · have hdiv : n / 10 ≤ fuel := by
        have : n / 10 < n := Nat.div_lt_self (Nat.pos_of_ne_zero h0) (by omega)
        omega
      rw [natReprCharsAux, if_neg h0, digitsToNat_append_digit, ih _ hdiv,
        charDigitOf_digitCharOf _ (Nat.mod_lt _ (by omega))]
      omega

theorem mem_natReprCharsAux :
    ∀ fuel n c, c ∈ natReprCharsAux fuel n → ∃ d, d < 10 ∧ c = digitCharOf d := by
  intro fuel
  induction fuel with
  | zero => intro n c hc; simp [natReprCharsAux] at hc
  | succ fuel ih =>
    intro n c hc
    by_cases h0 : n = 0
    · subst h0; simp [natReprCharsAux] at hc
    · rw [natReprCharsAux, if_neg h0] at hc
      rcases List.mem_append.mp hc with h | h
      · exact ih _ _ h
      · simp only [List.mem_singleton] at h
        exact ⟨n % 10, Nat.mod_lt _ (by omega), h⟩

theorem natReprCharsAux_ne_nil :
    ∀ fuel n, n ≠ 0 → n ≤ fuel → natReprCharsAux fuel n ≠ [] := by
  intro fuel n h0 hn
  cases fuel with
  | zero => omega
  | succ fuel =>
    rw [natReprCharsAux, if_neg h0]
    simp

theorem natReprChars_ne_nil (n : Nat) : natReprChars n ≠ [] := by
  by_cases h0 : n = 0
  · subst h0; simp [natReprChars]
  · rw [natReprChars, if_neg h0]
    exact natReprCharsAux_ne_nil _ _ h0 (by omega)

theorem mem_natReprChars {n : Nat} {c : Char} (hc : c ∈ natReprChars n) :
    ∃ d, d < 10 ∧ c = digitCharOf d := by
  by_cases h0 : n = 0
  · subst h0
    have hc0 : c = '0' := by simpa [natReprChars] using hc
    exact ⟨0, by omega, by rw [hc0]; rfl⟩
  · rw [natReprChars, if_neg h0] at hc
    exact mem_natReprCharsAux _ _ _ hc

theorem natReprChars_all_digits (n : Nat) :
    (natReprChars n).all isDigitChar = true := by
  rw [List.all_eq_true]
  intro c hc
  obtain ⟨d, hd, rfl⟩ := mem_natReprChars hc
  exact isDigitChar_digitCharOf d hd

theorem natReprChars_no_space {n : Nat} {c : Char} (hc : c ∈ natReprChars n) :
    c ≠ ' ' := by
  obtain ⟨d, hd, rfl⟩ := mem_natReprChars hc
  exact digitCharOf_ne_space d hd

theorem digitsToNat_natReprChars (n : Nat) :
    digitsToNat (natReprChars n) = n := by
  by_cases h0 : n = 0
  · subst h0; simp [natReprChars, digitsToNat, charDigitOf]
  · rw [natReprChars, if_neg h0]
    exact digitsToNat_natReprCharsAux _ _ (by omega)

/-! ### Helper lemmas about character-list splitting -/

theorem splitOnChar_no_sep (sep : Char) :
    ∀ l : List Char, (∀ c ∈ l, c ≠ sep) → splitOnChar sep l = [l] := by
  intro l
  induction l with
  | nil => intro _; rfl
  | cons c cs ih =>
    intro h
    have hc : c ≠ sep := h c (List.mem_cons_self _ _)
    rw [splitOnChar, if_neg hc, ih (fun x hx => h x (List.mem_cons_of_mem _ hx))]

theorem splitOnChar_append_sep (sep : Char) :
    ∀ (x rest : List Char), (∀ c ∈ x, c ≠ sep) →
      splitOnChar sep (x ++ sep :: rest) = x :: splitOnChar sep rest := by
  intro x
  induction x with
  | nil => intro rest _; simp [splitOnChar]
  | cons c cs ih =>
    intro rest h
    have hc : c ≠ sep := h c (List.mem_cons_self _ _)
    rw [List.cons_append, splitOnChar, if_neg hc,
      ih rest (fun x hx => h x (List.mem_cons_of_mem _ hx))]

theorem natReprChars_isEmpty (n : Nat) : (natReprChars n).isEmpty = false := by
  cases h : natReprChars n with
  | nil => exact absurd h (natReprChars_ne_nil n)
  | cons a l => rfl

theorem parseIdMapping_formatMapping (m : LinuxIdMapping) :
    parseIdMapping (formatMapping m) = some m := by
  obtain ⟨c, h, s⟩ := m
  have hsplit : splitOnChar ' ' (formatMapping ⟨c, h, s⟩).data =
      [natReprChars c, natReprChars h, natReprChars s] := by
    show splitOnChar ' '
        (natReprChars c ++ ' ' :: (natReprChars h ++ ' ' :: natReprChars s)) = _
    rw [splitOnChar_append_sep ' ' _ _ (fun x hx => natReprChars_no_space hx),
        splitOnChar_append_sep ' ' _ _ (fun x hx => natReprChars_no_space hx),
        splitOnChar_no_sep ' ' _ (fun x hx => natReprChars_no_space hx)]
  unfold parseIdMapping
  rw [hsplit]
  simp [natReprChars_isEmpty, natReprChars_all_digits, digitsToNat_natReprChars]

/-! ### Claim theorems -/

/-- C7: for every mapping list with exactly one entry, the writer performs
a single direct write of the line "container_id host_id size" to the
mapping file, invoking no helper, and re-parsing the written content
yields the same triple. -/
theorem single_entry_write_round_trip
    (m : LinuxIdMapping) (pid : Nat) (map_file : String)
    (bin : Option String) (exec : ExecOutcome) :
    write_id_mapping pid map_file [m] bin exec =
      some (.ok [.fileWrite map_file (formatMapping m)]) ∧
    parseIdMapping (formatMapping m) = some m :=
  ⟨rfl, parseIdMapping_formatMapping m⟩

/-- C3 counterexample: the claim's inclusive-range reading with exact
arithmetic fails on an entry whose 32-bit sum container_id + size wraps
around: the entry (4294967295, 0, 2) mathematically covers the id
4294967295, but the code's wrapped bound is 1 and the predicate rejects
it. -/
theorem is_id_mapped_overflow_counterexample :
    ¬ (is_id_mapped 4294967295 [⟨4294967295, 0, 2⟩] = true ↔
       ∃ m ∈ [(⟨4294967295, 0, 2⟩ : LinuxIdMapping)],
         m.container_id ≤ 4294967295 ∧
           4294967295 ≤ m.container_id + m.size) := by
  decide

/-- C3 (amended): for every id and every mapping list whose entries do not
overflow 32 bits (container_id + size < 2^32), membership holds iff some
entry satisfies container_id ≤ id ≤ container_id + size, inclusive on both
ends; the boundaries id = container_id and id = container_id + size are
mapped and id = container_id + size + 1 is not. -/
theorem is_id_mapped_inclusive_range :
    (∀ (id : Nat) (mappings : List LinuxIdMapping),
      (∀ m ∈ mappings, m.container_id + m.size < u32Mod) →
      (is_id_mapped id mappings = true ↔
        ∃ m ∈ mappings, m.container_id ≤ id ∧ id ≤ m.container_id + m.size)) ∧
    (∀ c h s, c + s < u32Mod →
      is_id_mapped c [⟨c, h, s⟩] = true ∧
      is_id_mapped (c + s) [⟨c, h, s⟩] = true ∧
      is_id_mapped (c + s + 1) [⟨c, h, s⟩] = false) := by
  constructor
  · intro id mappings hov
    rw [is_id_mapped, List.any_eq_true]
    constructor
    · rintro ⟨m, hm, hp⟩
      rw [Bool.and_eq_true, decide_eq_true_eq, decide_eq_true_eq] at hp
      refine ⟨m, hm, hp.1, ?_⟩
      have h2 := hp.2
      rwa [Nat.mod_eq_of_lt (hov m hm)] at h2
    · rintro ⟨m, hm, h1, h2⟩
      refine ⟨m, hm, ?_⟩
      rw [Bool.and_eq_true, decide_eq_true_eq, decide_eq_true_eq]
      exact ⟨h1, by rwa [Nat.mod_eq_of_lt (hov m hm)]⟩
  · intro c h s hov
    refine ⟨?_, ?_, ?_⟩
    · simp [is_id_mapped, Nat.mod_eq_of_lt hov]
    · simp [is_id_mapped, Nat.mod_eq_of_lt hov]
    · simp [is_id_mapped, Nat.mod_eq_of_lt hov]

theorem is_id_mapped_inclusive_range_witness :
    (is_id_mapped 100 [⟨0, 1000, 200⟩] = true ↔
      ∃ m ∈ [(⟨0, 1000, 200⟩ : LinuxIdMapping)],
        m.container_id ≤ 100 ∧ 100 ≤ m.container_id + m.size) ∧
    (is_id_mapped 5 [⟨5, 9, 3⟩] = true ∧
     is_id_mapped (5 + 3) [⟨5, 9, 3⟩] = true ∧
     is_id_mapped (5 + 3 + 1) [⟨5, 9, 3⟩] = false) :=
  ⟨is_id_mapped_inclusive_range.1 100 [⟨0, 1000, 200⟩] (by decide),
   is_id_mapped_inclusive_range.2 5 9 3 (by decide)⟩

/-- C2 (code evidence): on the multi-entry path the helper is invoked with
the pid followed by the mapping triples in list order, and a spawn
failure is an error; but a helper that exits with a non-zero status is
reported as success, because the source never inspects the captured exit
status. -/
theorem write_id_mapping_ignores_exit_status :
    write_id_mapping 42 "/proc/42/uid_map"
        [⟨0, 1000, 1⟩, ⟨1, 101000, 65536⟩] (some "/usr/bin/newuidmap")
        (.exited 1 "newuidmap: write failed") =
      some (.ok [.helperExec "/usr/bin/newuidmap"
        ["42", "0", "1000", "1", "1", "101000", "65536"]]) ∧
    write_id_mapping 42 "/proc/42/uid_map"
        [⟨0, 1000, 1⟩, ⟨1, 101000, 65536⟩] (some "/usr/bin/newuidmap")
        .spawnFailure =
      some (.error .helperExecutionFailure) :=
  ⟨rfl, rfl⟩

/-- C9: a writer call is a silent no-op when the config carries no mapping
list at all, while a present but empty mapping list fails with
EmptyMappingList. -/
theorem write_mapping_degenerate :
    (∀ (r : Rootless) (pid : Nat) (exec : ExecOutcome),
      r.uid_mappings = none → write_uid_mapping r pid exec = some (.ok [])) ∧
    (∀ (r : Rootless) (pid : Nat) (exec : ExecOutcome),
      r.gid_mappings = none → write_gid_mapping r pid exec = some (.ok [])) ∧
    (∀ (pid : Nat) (f : String) (bin : Option String) (exec : ExecOutcome),
      write_id_mapping pid f [] bin exec = some (.error .emptyMappingList)) ∧
    (∀ (r : Rootless) (pid : Nat) (exec : ExecOutcome),
      r.uid_mappings = some [] →
        write_uid_mapping r pid exec = some (.error .emptyMappingList)) ∧
    (∀ (r : Rootless) (pid : Nat) (exec : ExecOutcome),
      r.gid_mappings = some [] →
        write_gid_mapping r pid exec = some (.error .emptyMappingList)) := by
  refine ⟨?_, ?_, ?_, ?_, ?_⟩
  · intro r pid exec h; simp [write_uid_mapping, h]
  · intro r pid exec h; simp [write_gid_mapping, h]
  · intro pid f bin exec; rfl
  · intro r pid exec h; simp [write_uid_mapping, h, write_id_mapping]
  · intro r pid exec h; simp [write_gid_mapping, h, write_id_mapping]

theorem write_mapping_degenerate_witness :
    write_uid_mapping ⟨none, none, none, none, none, false⟩ 7 .spawnFailure =
      some (.ok []) ∧
    write_gid_mapping ⟨none, none, none, none, none, false⟩ 7 .spawnFailure =
      some (.ok []) ∧
    write_uid_mapping ⟨none, none, some [], some [], none, false⟩ 7
        .spawnFailure = some (.error .emptyMappingList) ∧
    write_gid_mapping ⟨none, none, some [], some [], none, false⟩ 7
        .spawnFailure = some (.error .emptyMappingList) :=
  ⟨write_mapping_degenerate.1 _ 7 _ rfl,
   write_mapping_degenerate.2.1 _ 7 _ rfl,
   write_mapping_degenerate.2.2.2.1 _ 7 _ rfl,
   write_mapping_degenerate.2.2.2.2 _ 7 _ rfl⟩

/-! ### Helper lemmas about the validator -/

theorem check_additional_gids_ok_iff (gidM : List LinuxIdMapping) :
    ∀ gids, check_additional_gids gidM gids = .ok () ↔
      ∀ g ∈ gids, is_id_mapped g gidM = true := by
  intro gids
  induction gids with
  | nil => simp [check_additional_gids]
  | cons a l ih =>
    rw [check_additional_gids]
    cases ha : is_id_mapped a gidM with
    | true =>
      rw [if_pos rfl, ih]
      constructor
      · intro hall g hg
        rcases List.mem_cons.mp hg with rfl | hg
        · exact ha
        · exact hall g hg
      · intro hall g hg
        exact hall g (List.mem_cons_of_mem _ hg)
    | false =>
      rw [if_neg (by simp)]
      constructor
      · intro h; simp at h
      · intro hall
        exact absurd (hall a (List.mem_cons_self a l)) (by simp [ha])

theorem check_additional_gids_find (gidM : List LinuxIdMapping) :
    ∀ gids g, gids.find? (fun x => !is_id_mapped x gidM) = some g →
      check_additional_gids gidM gids = .error (.unmappedSupplementaryGroup g) := by
  intro gids
  induction gids with
  | nil => intro g h; simp at h
  | cons a l ih =>
    intro g h
    rw [check_additional_gids]
    cases ha : is_id_mapped a gidM with
    | true =>
      rw [if_pos rfl]
      apply ih
      rwa [List.find?_cons_of_neg _ (by simp [ha])] at h
    | false =>
      rw [List.find?_cons_of_pos _ (by simp [ha])] at h
      injection h with h1
      subst h1
      rw [if_neg (by simp)]

theorem validate_reduce_gids
    (euidRoot : Bool) (spec : Spec) (linux : LinuxSpec) (ns : LinuxNamespace)
    (us gs : List LinuxIdMapping) (mounts : List Mount) (gids : List Nat)
    (hlinux : spec.linux = some linux)
    (hns : getUserNamespace linux = some ns)
    (huid : linux.uid_mappings = some us) (hus : us ≠ [])
    (hgid : linux.gid_mappings = some gs) (hgs : gs ≠ [])
    (hmounts : spec.mounts = some mounts)
    (hvm : validate_mounts mounts us gs = .ok ())
    (hgids : spec.process.bind (fun p => p.user.additional_gids) = some gids) :
    validate euidRoot spec =
      (match euidRoot, gids.isEmpty with
       | true, false => check_additional_gids gs gids
       | false, false => .error .supplementaryGroupsForbidden
       | _, _ => .ok ()) := by
  obtain ⟨u, us', rfl⟩ := List.exists_cons_of_ne_nil hus
  obtain ⟨g, gs', rfl⟩ := List.exists_cons_of_ne_nil hgs
  simp [validate, hlinux, hns, huid, hgid, hmounts, hvm, hgids]

/-- C1: supplementary-group policy of the validator.  For a specification
that passes every earlier check and declares an additional-group-id list:
an empty list passes; for the superuser a non-empty list passes iff every
gid is mapped in the gid mappings, the first unmapped gid failing with
UnmappedSupplementaryGroup; for a non-superuser a non-empty list always
fails with SupplementaryGroupsForbidden. -/
theorem validate_supplementary_group_policy
    (euidRoot : Bool) (spec : Spec) (linux : LinuxSpec) (ns : LinuxNamespace)
    (us gs : List LinuxIdMapping) (mounts : List Mount) (gids : List Nat)
    (hlinux : spec.linux = some linux)
    (hns : getUserNamespace linux = some ns)
    (huid : linux.uid_mappings = some us) (hus : us ≠ [])
    (hgid : linux.gid_mappings = some gs) (hgs : gs ≠ [])
    (hmounts : spec.mounts = some mounts)
    (hvm : validate_mounts mounts us gs = .ok ())
    (hgids : spec.process.bind (fun p => p.user.additional_gids) = some gids) :
    (gids = [] → validate euidRoot spec = .ok ()) ∧
    (euidRoot = true →
      (validate euidRoot spec = .ok () ↔
        ∀ g ∈ gids, is_id_mapped g gs = true)) ∧
    (euidRoot = true → ∀ g,
      gids.find? (fun x => !is_id_mapped x gs) = some g →
      validate euidRoot spec = .error (.unmappedSupplementaryGroup g)) ∧
    (euidRoot = false → gids ≠ [] →
      validate euidRoot spec = .error .supplementaryGroupsForbidden) := by
  have hred := validate_reduce_gids euidRoot spec linux ns us gs mounts gids
    hlinux hns huid hus hgid hgs hmounts hvm hgids
  refine ⟨?_, ?_, ?_, ?_⟩
  · rintro rfl
    rw [hred]
    cases euidRoot <;> rfl
  · rintro rfl
    rw [hred]
    cases gids with
    | nil => simp
    | cons a l => simpa using check_additional_gids_ok_iff gs (a :: l)
  · rintro rfl g hfind
    rw [hred]
    have hne : gids ≠ [] := by
      intro h
      subst h
      simp at hfind
    obtain ⟨a, l, rfl⟩ := List.exists_cons_of_ne_nil hne
    simpa using check_additional_gids_find gs (a :: l) g hfind
  · rintro rfl hne
    rw [hred]
    obtain ⟨a, l, rfl⟩ := List.exists_cons_of_ne_nil hne
    rfl

/-! ### Shared concrete fixtures for witnesses -/

def exUserNs : LinuxNamespace := ⟨LinuxNamespaceType.user, none⟩

def exMapping : LinuxIdMapping := ⟨0, 1000, 200⟩

def exLinux : LinuxSpec :=
  { namespaces := some [exUserNs]
    uid_mappings := some [exMapping]
    gid_mappings := some [exMapping] }

def exSpec : Spec :=
  { linux := some exLinux
    mounts := some []
    process := some ⟨⟨some [100]⟩⟩ }

def envRoot : Env :=
  { euid_is_root := true
    youki_use_rootless := none
    path_var := none
    file_exists := fun _ => false }

def envNonRoot : Env :=
  { euid_is_root := false
    youki_use_rootless := none
    path_var := none
    file_exists := fun _ => false }

theorem validate_supplementary_group_policy_witness :
    validate true exSpec = .ok () ∧
    validate false exSpec = .error .supplementaryGroupsForbidden :=
  ⟨((validate_supplementary_group_policy true exSpec exLinux exUserNs
      [exMapping] [exMapping] [] [100]
      rfl rfl rfl (by decide) rfl (by decide) rfl rfl rfl).2.1 rfl).mpr
      (by decide),
   (validate_supplementary_group_policy false exSpec exLinux exUserNs
      [exMapping] [exMapping] [] [100]
      rfl rfl rfl (by decide) rfl (by decide) rfl rfl rfl).2.2.2 rfl
      (by decide)⟩

/-- C10: once the earlier validator checks pass (user namespace present,
both mapping lists present and non-empty), an absent mounts list makes
validation fail even though there is no mount option to check; and a
specification can only pass validation with a present mounts list. -/
theorem validate_requires_mounts :
    (∀ (euidRoot : Bool) (spec : Spec) (linux : LinuxSpec)
        (ns : LinuxNamespace) (us gs : List LinuxIdMapping),
      spec.linux = some linux → getUserNamespace linux = some ns →
      linux.uid_mappings = some us → us ≠ [] →
      linux.gid_mappings = some gs → gs ≠ [] →
      spec.mounts = none →
      validate euidRoot spec = .error .noMountsInSpec) ∧
    (∀ (euidRoot : Bool) (spec : Spec),
      validate euidRoot spec = .ok () → spec.mounts.isSome = true) := by
  constructor
  · intro euidRoot spec linux ns us gs hlinux hns huid hus hgid hgs hmounts
    obtain ⟨u, us', rfl⟩ := List.exists_cons_of_ne_nil hus
    obtain ⟨g, gs', rfl⟩ := List.exists_cons_of_ne_nil hgs
    simp [validate, hlinux, hns, huid, hgid, hmounts]
  · intro euidRoot spec h
    cases hmounts : spec.mounts with
    | some ms => rfl
    | none =>
      exfalso
      cases hlinux : spec.linux with
      | none => simp [validate, hlinux] at h
      | some linux =>
        cases hns : getUserNamespace linux with
        | none => simp [validate, hlinux, hns] at h
        | some ns =>
          cases hgid : linux.gid_mappings with
          | none => simp [validate, hlinux, hns, hgid] at h
          | some gs =>
            cases huid : linux.uid_mappings with
            | none => simp [validate, hlinux, hns, hgid, huid] at h
            | some us =>
              cases us with
              | nil => simp [validate, hlinux, hns, hgid, huid] at h
              | cons u us' =>
                cases gs with
                | nil => simp [validate, hlinux, hns, hgid, huid] at h
                | cons g gs' =>
                  simp [validate, hlinux, hns, hgid, huid, hmounts] at h

def noMountsSpec : Spec :=
  { linux := some exLinux
    mounts := none
    process := none }

theorem validate_requires_mounts_witness :
    validate true noMountsSpec = .error .noMountsInSpec ∧
    (Spec.mounts exSpec).isSome = true :=
  ⟨validate_requires_mounts.1 true noMountsSpec exLinux exUserNs
     [exMapping] [exMapping] rfl rfl rfl (by decide) rfl (by decide) rfl,
   validate_requires_mounts.2 true exSpec rfl⟩

/-- C4: when rootless operation is required (non-root invoker, or the
override environment flag set to "true") and the specification declares no
user namespace, context construction fails with MissingUserNamespace. -/
theorem rootless_new_missing_user_namespace
    (env : Env) (spec : Spec) (linux : LinuxSpec)
    (hlinux : spec.linux = some linux)
    (hns : getUserNamespace linux = none)
    (hreq : env.euid_is_root = false ∨ env.youki_use_rootless = some "true") :
    Rootless.new env spec = .error .missingUserNamespace := by
  have hrr : rootless_required env = true := by
    rcases hreq with h | h
    · simp [rootless_required, h]
    · simp [rootless_required, h]
  simp [Rootless.new, hlinux, hns, hrr]

def noUserNsLinux : LinuxSpec :=
  { namespaces := some []
    uid_mappings := none
    gid_mappings := none }

def noUserNsSpec : Spec :=
  { linux := some noUserNsLinux
    mounts := none
    process := none }

theorem rootless_new_missing_user_namespace_witness :
    Rootless.new envNonRoot noUserNsSpec = .error .missingUserNamespace :=
  rootless_new_missing_user_namespace envNonRoot noUserNsSpec noUserNsLinux
    rfl rfl (Or.inl rfl)

/-- C5: a user-namespace entry that carries a path (joining an existing
namespace) makes context construction return None regardless of the
mapping lists; and a Some(config) result can only arise when a
user-namespace entry exists, its path is absent, and the validator
passed. -/
theorem rootless_new_join_existing_namespace :
    (∀ (env : Env) (spec : Spec) (linux : LinuxSpec) (ns : LinuxNamespace)
        (p : String),
      spec.linux = some linux → getUserNamespace linux = some ns →
      ns.path = some p → Rootless.new env spec = .ok none) ∧
    (∀ (env : Env) (spec : Spec) (cfg : Rootless),
      Rootless.new env spec = .ok (some cfg) →
      ∃ linux ns, spec.linux = some linux ∧
        getUserNamespace linux = some ns ∧ ns.path = none ∧
        validate env.euid_is_root spec = .ok ()) := by
  constructor
  · intro env spec linux ns p hlinux hns hp
    simp [Rootless.new, hlinux, hns, hp]
  · intro env spec cfg h
    cases hlinux : spec.linux with
    | none => simp [Rootless.new, hlinux] at h
    | some linux =>
      cases hns : getUserNamespace linux with
      | none =>
        cases hrr : rootless_required env with
        | true => simp [Rootless.new, hlinux, hns, hrr] at h
        | false => simp [Rootless.new, hlinux, hns, hrr] at h
      | some ns =>
        cases hp : ns.path with
        | some p => simp [Rootless.new, hlinux, hns, hp] at h
        | none =>
          refine ⟨linux, ns, rfl, hns, hp, ?_⟩
          cases hv : validate env.euid_is_root spec with
          | error e => simp [Rootless.new, hlinux, hns, hp, hv] at h
          | ok u => cases u; rfl

def joinNsUserNs : LinuxNamespace :=
  ⟨LinuxNamespaceType.user, some "/proc/1/ns/user"⟩

def joinNsLinux : LinuxSpec :=
  { namespaces := some [joinNsUserNs]
    uid_mappings := none
    gid_mappings := none }

def joinNsSpec : Spec :=
  { linux := some joinNsLinux
    mounts := none
    process := none }

theorem rootless_new_join_existing_namespace_witness :
    Rootless.new envRoot joinNsSpec = .ok none ∧
    (∃ linux ns, exSpec.linux = some linux ∧
      getUserNamespace linux = some ns ∧ ns.path = none ∧
      validate envRoot.euid_is_root exSpec = .ok ()) :=
  ⟨rootless_new_join_existing_namespace.1 envRoot joinNsSpec joinNsLinux
     joinNsUserNs "/proc/1/ns/user" rfl rfl rfl,
   rootless_new_join_existing_namespace.2 envRoot exSpec
     (rootlessFrom envRoot exLinux) rfl⟩

/-! ### Helper lemmas for the mount-option checks -/

theorem strStartsWith_gid_not_uid (opt : String)
    (h : strStartsWith opt "gid=" = true) :
    strStartsWith opt "uid=" = false := by
  unfold strStartsWith at h ⊢
  cases hd : opt.data with
  | nil =>
    rw [hd] at h
    exact absurd h (by decide)
  | cons c cs =>
    rw [hd] at h
    have h' : (('g' : Char) == c && List.isPrefixOf ['i', 'd', '='] cs) = true := h
    rw [Bool.and_eq_true] at h'
    have hc : c = 'g' := (beq_iff_eq.mp h'.1).symm
    subst hc
    have hu : List.isPrefixOf (String.data "uid=") ('g' :: cs) =
        (('u' : Char) == 'g' && List.isPrefixOf ['i', 'd', '='] cs) := rfl
    rw [hu, show (('u' : Char) == 'g') = false from by decide, Bool.false_and]

theorem check_mount_options_no_id_opts
    (uidM gidM : List LinuxIdMapping) (mount : Mount) :
    ∀ opts, (∀ opt ∈ opts, strStartsWith opt "uid=" = false ∧
        strStartsWith opt "gid=" = false) →
      check_mount_options uidM gidM mount opts = .ok () := by
  intro opts
  induction opts with
  | nil => intro _; rfl
  | cons o os ih =>
    intro h
    have ho := h o (List.mem_cons_self _ _)
    rw [check_mount_options, checkMountOptFor, if_neg (by simp [ho.1]),
      checkMountOptFor, if_neg (by simp [ho.2])]
    exact ih (fun x hx => h x (List.mem_cons_of_mem _ hx))

/-- C8: mount-option consistency.  A uid=/gid= option whose value does not
parse as an unsigned 32-bit integer fails validation with
InvalidMountOption; a parsed value not covered by the corresponding
mapping list fails with UnmappedMountId; mounts none of whose options
match either pattern are accepted. -/
theorem validate_mounts_option_policy (uidM gidM : List LinuxIdMapping) :
    (∀ (mount : Mount) (opt : String) (opts : List String)
        (rest : List Mount),
      mount.options = some (opt :: opts) →
      strStartsWith opt "uid=" = true →
      parse_u32 (strDropChars opt 4) = none →
      validate_mounts (mount :: rest) uidM gidM =
        .error (.invalidMountOption mount opt)) ∧
    (∀ (mount : Mount) (opt : String) (opts : List String)
        (rest : List Mount) (n : Nat),
      mount.options = some (opt :: opts) →
      strStartsWith opt "uid=" = true →
      parse_u32 (strDropChars opt 4) = some n →
      is_id_mapped n uidM = false →
      validate_mounts (mount :: rest) uidM gidM =
        .error (.unmappedMountId mount n)) ∧
    (∀ (mount : Mount) (opt : String) (opts : List String)
        (rest : List Mount),
      mount.options = some (opt :: opts) →
      strStartsWith opt "gid=" = true →
      parse_u32 (strDropChars opt 4) = none →
      validate_mounts (mount :: rest) uidM gidM =
        .error (.invalidMountOption mount opt)) ∧
    (∀ (mount : Mount) (opt : String) (opts : List String)
        (rest : List Mount) (n : Nat),
      mount.options = some (opt :: opts) →
      strStartsWith opt "gid=" = true →
      parse_u32 (strDropChars opt 4) = some n →
      is_id_mapped n gidM = false →
      validate_mounts (mount :: rest) uidM gidM =
        .error (.unmappedMountId mount n)) ∧
    (∀ (mounts : List Mount),
      (∀ m ∈ mounts, ∀ opt ∈ m.options.getD [],
        strStartsWith opt "uid=" = false ∧ strStartsWith opt "gid=" = false) →
      validate_mounts mounts uidM gidM = .ok ()) := by
  refine ⟨?_, ?_, ?_, ?_, ?_⟩
  · intro mount opt opts rest hopts hpre hparse
    simp [validate_mounts, check_mount_options, checkMountOptFor, hopts,
      hpre, hparse]
  · intro mount opt opts rest n hopts hpre hparse hmap
    simp [validate_mounts, check_mount_options, checkMountOptFor, hopts,
      hpre, hparse, hmap]
  · intro mount opt opts rest hopts hpre hparse
    simp [validate_mounts, check_mount_options, checkMountOptFor, hopts,
      hpre, hparse, strStartsWith_gid_not_uid opt hpre]
  · intro mount opt opts rest n hopts hpre hparse hmap
    simp [validate_mounts, check_mount_options, checkMountOptFor, hopts,
      hpre, hparse, hmap, strStartsWith_gid_not_uid opt hpre]
  · intro mounts h
    induction mounts with
    | nil => rfl
    | cons m rest ih =>
      have hm := h m (List.mem_cons_self _ _)
      have hrest := ih (fun x hx => h x (List.mem_cons_of_mem _ hx))
      cases hopts : m.options with
      | none => simp [validate_mounts, hopts, hrest]
      | some opts =>
        have hcheck : check_mount_options uidM gidM m opts = .ok () :=
          check_mount_options_no_id_opts uidM gidM m opts
            (by intro o ho; exact hm o (by rw [hopts]; exact ho))
        simp [validate_mounts, hopts, hcheck, hrest]

def exMount : Mount := ⟨some ["uid=50"]⟩

def exNoIdMount : Mount := ⟨some ["rw", "nosuid"]⟩

theorem validate_mounts_option_policy_witness :
    validate_mounts [exMount] [⟨0, 1000, 10⟩] [⟨0, 1000, 10⟩] =
      .error (.unmappedMountId exMount 50) ∧
    validate_mounts [Mount.mk (some ["uid=abc"])] [⟨0, 1000, 10⟩]
        [⟨0, 1000, 10⟩] =
      .error (.invalidMountOption (Mount.mk (some ["uid=abc"])) "uid=abc") ∧
    validate_mounts [Mount.mk (some ["gid=50"])] [⟨0, 1000, 10⟩]
        [⟨0, 1000, 10⟩] =
      .error (.unmappedMountId (Mount.mk (some ["gid=50"])) 50) ∧
    validate_mounts [exNoIdMount] [⟨0, 1000, 10⟩] [⟨0, 1000, 10⟩] = .ok () :=
  ⟨(validate_mounts_option_policy [⟨0, 1000, 10⟩] [⟨0, 1000, 10⟩]).2.1
     exMount "uid=50" [] [] 50 rfl rfl rfl rfl,
   (validate_mounts_option_policy [⟨0, 1000, 10⟩] [⟨0, 1000, 10⟩]).1
     (Mount.mk (some ["uid=abc"])) "uid=abc" [] [] rfl rfl rfl,
   (validate_mounts_option_policy [⟨0, 1000, 10⟩] [⟨0, 1000, 10⟩]).2.2.2.1
     (Mount.mk (some ["gid=50"])) "gid=50" [] [] 50 rfl rfl rfl rfl,
   (validate_mounts_option_policy [⟨0, 1000, 10⟩] [⟨0, 1000, 10⟩]).2.2.2.2
     [exNoIdMount] (by decide)⟩

/-- C6: helper-binary location policy.  An absent or single-entry uid
mapping list needs no helper and yields None; with two or more entries an
unset PATH fails with PathLookupFailure, both helpers found yield the
first match of each name over the PATH directories in order, and a helper
found in no directory fails with MissingHelperBinary. -/
theorem lookup_map_binaries_policy :
    (∀ (linux : LinuxSpec) (env : Env),
      linux.uid_mappings = none → lookup_map_binaries linux env = .ok none) ∧
    (∀ (linux : LinuxSpec) (env : Env) (m : LinuxIdMapping),
      linux.uid_mappings = some [m] →
      lookup_map_binaries linux env = .ok none) ∧
    (∀ (linux : LinuxSpec) (env : Env) (l : List LinuxIdMapping),
      linux.uid_mappings = some l → 2 ≤ l.length → env.path_var = none →
      lookup_map_binaries linux env = .error .pathLookupFailure) ∧
    (∀ (linux : LinuxSpec) (env : Env) (l : List LinuxIdMapping)
        (pv u g : String),
      linux.uid_mappings = some l → 2 ≤ l.length → env.path_var = some pv →
      ((splitTerminator ':' pv).map
        (fun p => p ++ "/" ++ "newuidmap")).find? env.file_exists = some u →
      ((splitTerminator ':' pv).map
        (fun p => p ++ "/" ++ "newgidmap")).find? env.file_exists = some g →
      lookup_map_binaries linux env = .ok (some (u, g))) ∧
    (∀ (linux : LinuxSpec) (env : Env) (l : List LinuxIdMapping)
        (pv : String),
      linux.uid_mappings = some l → 2 ≤ l.length → env.path_var = some pv →
      (((splitTerminator ':' pv).map
         (fun p => p ++ "/" ++ "newuidmap")).find? env.file_exists = none ∨
       ((splitTerminator ':' pv).map
         (fun p => p ++ "/" ++ "newgidmap")).find? env.file_exists = none) →
      lookup_map_binaries linux env = .error .missingHelperBinary) := by
  refine ⟨?_, ?_, ?_, ?_, ?_⟩
  · intro linux env hmap
    simp [lookup_map_binaries, hmap]
  · intro linux env m hmap
    simp [lookup_map_binaries, hmap]
  · intro linux env l hmap hlen hpath
    have hne : (l.length == 1) = false := by
      rw [beq_eq_false_iff_ne]
      omega
    simp [lookup_map_binaries, hmap, hne, lookup_map_binary, hpath]
  · intro linux env l pv u g hmap hlen hpath hfu hfg
    have hne : (l.length == 1) = false := by
      rw [beq_eq_false_iff_ne]
      omega
    simp [lookup_map_binaries, hmap, hne, lookup_map_binary, hpath, hfu, hfg]
  · intro linux env l pv hmap hlen hpath hmiss
    have hne : (l.length == 1) = false := by
      rw [beq_eq_false_iff_ne]
      omega
    rcases hmiss with hfu | hfg
    · simp [lookup_map_binaries, hmap, hne, lookup_map_binary, hpath, hfu]
    · cases hfu : ((splitTerminator ':' pv).map
          (fun p => p ++ "/" ++ "newuidmap")).find? env.file_exists with
      | none =>
        simp [lookup_map_binaries, hmap, hne, lookup_map_binary, hpath, hfu]
      | some u =>
        simp [lookup_map_binaries, hmap, hne, lookup_map_binary, hpath,
          hfu, hfg]

def envWithPath : Env :=
  { euid_is_root := true
    youki_use_rootless := none
    path_var := some "/usr/bin:/bin"
    file_exists := fun p =>
      decide (p = "/bin/newuidmap") || decide (p = "/usr/bin/newgidmap") ||
        decide (p = "/bin/newgidmap") }

def twoMapLinux : LinuxSpec :=
  { namespaces := some [exUserNs]
    uid_mappings := some [⟨0, 1000, 1⟩, ⟨1, 100000, 65536⟩]
    gid_mappings := some [⟨0, 1000, 1⟩, ⟨1, 100000, 65536⟩] }

theorem lookup_map_binaries_policy_witness :
    lookup_map_binaries twoMapLinux envWithPath =
      .ok (some ("/bin/newuidmap", "/usr/bin/newgidmap")) ∧
    lookup_map_binaries twoMapLinux envRoot = .error .pathLookupFailure ∧
    lookup_map_binaries { twoMapLinux with uid_mappings := some [exMapping] }
      envWithPath = .ok none ∧
    lookup_map_binaries { twoMapLinux with uid_mappings := none }
      envWithPath = .ok none ∧
    lookup_map_binaries twoMapLinux
      { envWithPath with file_exists := fun _ => false } =
      .error .missingHelperBinary :=
  ⟨lookup_map_binaries_policy.2.2.2.1 twoMapLinux envWithPath
     [⟨0, 1000, 1⟩, ⟨1, 100000, 65536⟩] "/usr/bin:/bin"
     "/bin/newuidmap" "/usr/bin/newgidmap" rfl (by decide) rfl rfl rfl,
   lookup_map_binaries_policy.2.2.1 twoMapLinux envRoot
     [⟨0, 1000, 1⟩, ⟨1, 100000, 65536⟩] rfl (by decide) rfl,
   lookup_map_binaries_policy.2.1 _ envWithPath exMapping rfl,
   lookup_map_binaries_policy.1 _ envWithPath rfl,
   lookup_map_binaries_policy.2.2.2.2 twoMapLinux
     { envWithPath with file_exists := fun _ => false }
     [⟨0, 1000, 1⟩, ⟨1, 100000, 65536⟩] "/usr/bin:/bin" rfl (by decide) rfl
     (Or.inl rfl)⟩
